import Mathlib

/-!
Shallow embedding of the shyLLM repository (serve.py and shyLLM@0.0.2.py)
and verification of the frozen claims about it.

The port-search loop `find_available_port` in serve.py is nondeterministic:
each iteration draws `8000 + randint(0, 65535)` and attempts a socket bind
that may fail with a socket error.  We embed the environment as two oracles:
`off i` is the random offset drawn on attempt `i` (the value of
`randint(0, 65535)`), and `bindOk i` tells whether the bind on attempt `i`
succeeds.  The unbounded `while True` loop is embedded as a fuel-indexed
recursion: `some (n, p)` means the loop returned port `p` on attempt `n`
(0-based) within `fuel` iterations, `none` means it had not yet returned.
-/

namespace Serve

/-- One iteration of the loop in serve.py `find_available_port`, fuelled.
`i` is the index of the current attempt, `off i` the random offset drawn,
`bindOk i` whether `sock.bind(("0.0.0.0", port))` succeeds.  On success the
loop returns the port; on a socket error it retries with a fresh candidate. -/
def find_available_port (off : ℕ → ℕ) (bindOk : ℕ → Bool) : ℕ → ℕ → Option (ℕ × ℕ)
  | _, 0 => none
  | i, fuel + 1 =>
    if bindOk i then some (i, 8000 + off i)
    else find_available_port off bindOk (i + 1) fuel

/-- Socket-level events of a run of `find_available_port`:
socket creation, a bind attempt that succeeds or fails, the close of the
probe socket, and the return of the port. -/
inductive Ev : Type
  | created (i : ℕ)
  | bound (i : ℕ) (port : ℕ)
  | bindFailed (i : ℕ) (port : ℕ)
  | closed (i : ℕ)
  | returned (port : ℕ)
deriving DecidableEq, Repr

/-- The event trace of the loop body of `find_available_port`: each
iteration creates a socket and attempts the bind; on success it closes the
socket and returns the port (in that order, as in the source), on failure
the error is discarded and the loop retries. -/
def find_available_port_trace (off : ℕ → ℕ) (bindOk : ℕ → Bool) : ℕ → ℕ → List Ev
  | _, 0 => []
  | i, fuel + 1 =>
    if bindOk i then
      [Ev.created i, Ev.bound i (8000 + off i), Ev.closed i, Ev.returned (8000 + off i)]
    else
      Ev.created i :: Ev.bindFailed i (8000 + off i) :: find_available_port_trace off bindOk (i + 1) fuel

/-- Count the bind attempts (successful or failed) in a trace. -/
def countBindAttempts : List Ev → ℕ
  | [] => 0
  | Ev.bound _ _ :: rest => countBindAttempts rest + 1
  | Ev.bindFailed _ _ :: rest => countBindAttempts rest + 1
  | _ :: rest => countBindAttempts rest

lemma find_available_port_returns_candidate (off : ℕ → ℕ) (bindOk : ℕ → Bool) :
    ∀ fuel i n p, find_available_port off bindOk i fuel = some (n, p) →
      p = 8000 + off n ∧ bindOk n = true ∧ i ≤ n := by
  intro fuel
  induction fuel with
  | zero => intro i n p h; simp [find_available_port] at h
  | succ fuel ih =>
    intro i n p h
    by_cases hb : bindOk i
    · simp [find_available_port, hb] at h
      obtain ⟨hn, hp⟩ := h
      subst hn; subst hp
      exact ⟨rfl, hb, le_refl _⟩
    · simp [find_available_port, hb] at h
      obtain ⟨hp, hbn, hin⟩ := ih (i + 1) n p h
      exact ⟨hp, hbn, le_trans (Nat.le_succ i) hin⟩

lemma find_available_port_trace_close_before_return (off : ℕ → ℕ) (bindOk : ℕ → Bool) :
    ∀ fuel i n p, find_available_port off bindOk i fuel = some (n, p) →
      ∃ pre, find_available_port_trace off bindOk i fuel =
        pre ++ [Ev.closed n, Ev.returned p] := by
  intro fuel
  induction fuel with
  | zero => intro i n p h; simp [find_available_port] at h
  | succ fuel ih =>
    intro i n p h
    by_cases hb : bindOk i
    · simp [find_available_port, hb] at h
      obtain ⟨hn, hp⟩ := h
      subst hn; subst hp
      exact ⟨[Ev.created i, Ev.bound i (8000 + off i)], by
        simp [find_available_port_trace, hb]⟩
    · simp [find_available_port, hb] at h
      obtain ⟨pre, hpre⟩ := ih (i + 1) n p h
      refine ⟨Ev.created i :: Ev.bindFailed i (8000 + off i) :: pre, ?_⟩
      simp [find_available_port_trace, hb, hpre]

/-- C1: every returned port is `8000` plus an offset in `[0, 65535]`, hence in
`[8000, 73535]`, and the trace closes the successful probe socket strictly
before it returns the port. -/
theorem C1_port_range_and_socket_closed (off : ℕ → ℕ) (bindOk : ℕ → Bool)
    (fuel n p : ℕ) (hoff : ∀ i, off i ≤ 65535)
    (h : find_available_port off bindOk 0 fuel = some (n, p)) :
    (8000 ≤ p ∧ p ≤ 73535) ∧
    ∃ pre, find_available_port_trace off bindOk 0 fuel =
      pre ++ [Ev.closed n, Ev.returned p] := by
  obtain ⟨hp, _, _⟩ := find_available_port_returns_candidate off bindOk fuel 0 n p h
  subst hp
  refine ⟨⟨Nat.le_add_right _ _, ?_⟩, ?_⟩
  · have := hoff n; omega
  · exact find_available_port_trace_close_before_return off bindOk fuel 0 n _ h

theorem C1_witness :
    (∀ i, (fun _ : ℕ => 5) i ≤ 65535) ∧
    find_available_port (fun _ => 5) (fun _ => true) 0 1 = some (0, 8005) ∧
    ((8000 ≤ 8005 ∧ 8005 ≤ 73535) ∧
      ∃ pre, find_available_port_trace (fun _ => 5) (fun _ => true) 0 1 =
        pre ++ [Ev.closed 0, Ev.returned 8005]) :=
  ⟨fun _ => by show (5 : ℕ) ≤ 65535; decide, rfl,
   C1_port_range_and_socket_closed (fun _ => 5) (fun _ => true) 1 0 8005
     (fun _ => by show (5 : ℕ) ≤ 65535; decide) rfl⟩

lemma find_available_port_exact_from (off : ℕ → ℕ) (bindOk : ℕ → Bool) :
    ∀ k j fuel, (∀ i, j ≤ i → i < j + k → bindOk i = false) →
      bindOk (j + k) = true → k + 1 ≤ fuel →
      find_available_port off bindOk j fuel = some (j + k, 8000 + off (j + k)) ∧
      countBindAttempts (find_available_port_trace off bindOk j fuel) = k + 1 := by
  intro k
  induction k with
  | zero =>
    intro j fuel hfail hsucc hfuel
    match fuel, hfuel with
    | fuel + 1, _ =>
      simp only [Nat.add_zero] at hsucc
      constructor
      · simp [find_available_port, hsucc]
      · simp [find_available_port_trace, hsucc, countBindAttempts]
  | succ k ih =>
    intro j fuel hfail hsucc hfuel
    match fuel, hfuel with
    | fuel + 1, hfuel =>
      have hbj : bindOk j = false := hfail j (le_refl _) (by omega)
      have harr : j + 1 + k = j + (k + 1) := by omega
      have hstep := ih (j + 1) fuel
        (fun i hi1 hi2 => hfail i (by omega) (by omega))
        (by rw [harr]; exact hsucc)
        (by omega)
      rw [harr] at hstep
      constructor
      · simp only [find_available_port, hbj, Bool.false_eq_true, if_false]
        exact hstep.1
      · simp only [find_available_port_trace, hbj, Bool.false_eq_true, if_false]
        simp [countBindAttempts, hstep.2]

/-- C2: if the first `N - 1` bind attempts fail and the `N`-th succeeds, the
loop makes exactly `N` bind attempts and returns the candidate of the `N`-th
attempt (0-based attempt index `N - 1`). -/
theorem C2_exactly_N_attempts (off : ℕ → ℕ) (bindOk : ℕ → Bool) (N fuel : ℕ)
    (hN : 1 ≤ N) (hfail : ∀ i, i < N - 1 → bindOk i = false)
    (hsucc : bindOk (N - 1) = true) (hfuel : N ≤ fuel) :
    find_available_port off bindOk 0 fuel = some (N - 1, 8000 + off (N - 1)) ∧
    countBindAttempts (find_available_port_trace off bindOk 0 fuel) = N := by
  have h := find_available_port_exact_from off bindOk (N - 1) 0 fuel
    (fun i _ hi => hfail i (by omega))
    (by simpa using hsucc) (by omega)
  simp only [Nat.zero_add] at h
  refine ⟨h.1, ?_⟩
  rw [h.2]; omega

theorem C2_witness :
    (1 ≤ 2 ∧ (∀ i, i < 2 - 1 → (fun j : ℕ => decide (1 ≤ j)) i = false) ∧
      (fun j : ℕ => decide (1 ≤ j)) (2 - 1) = true ∧ 2 ≤ 5) ∧
    find_available_port (fun _ => 7) (fun j => decide (1 ≤ j)) 0 5 = some (1, 8007) ∧
    countBindAttempts
      (find_available_port_trace (fun _ => 7) (fun j => decide (1 ≤ j)) 0 5) = 2 :=
  ⟨⟨by decide, by decide, by decide, by decide⟩,
   C2_exactly_N_attempts (fun _ => 7) (fun j => decide (1 ≤ j)) 2 5
     (by decide) (by decide) (by decide) (by decide)⟩

/-- C9: the loop has no attempt limit: if every bind attempt fails, then no
amount of fuel makes `find_available_port` return — the loop never
terminates unless some attempt succeeds. -/
theorem C9_no_attempt_limit (off : ℕ → ℕ) (bindOk : ℕ → Bool)
    (hfail : ∀ i, bindOk i = false) :
    ∀ fuel i, find_available_port off bindOk i fuel = none := by
  intro fuel
  induction fuel with
  | zero => intro i; rfl
  | succ fuel ih =>
    intro i
    simp [find_available_port, hfail i, ih (i + 1)]

theorem C9_witness :
    (∀ i, (fun _ : ℕ => false) i = false) ∧
    find_available_port (fun _ => 3) (fun _ => false) 0 4 = none :=
  ⟨fun _ => rfl, C9_no_attempt_limit (fun _ => 3) (fun _ => false) (fun _ => rfl) 4 0⟩

end Serve

namespace Serve

/-!
Embedding of `run_server` in serve.py.  The call `uvicorn.run(...)` is an
external effect: it either returns normally (after the server stops) or
raises an `OSError` carrying an errno.  `run_server` wraps the whole body in
`try/except OSError`: errno 98 ("address already in use") prints a
diagnostic to stderr and calls `sys.exit(1)`; any other errno is re-raised.
-/

/-- Outcome of the `uvicorn.run` call inside `run_server`. -/
inductive RunOutcome : Type
  | normal
  | osError (errno : ℤ)
deriving DecidableEq, Repr

/-- Observable result of the `run_server` process body: normal completion,
a clean `sys.exit` with an exit code and a stderr message, or an exception
propagating unhandled out of `run_server`. -/
inductive ProcResult : Type
  | finished
  | exited (code : ℕ) (stderrMsg : String)
  | raisedOS (errno : ℤ)
deriving DecidableEq, Repr

/-- serve.py `run_server`, parametrised by the outcome of the server start
call.  On `OSError` with errno 98 it prints to stderr and exits with
status 1; any other `OSError` is re-raised. -/
def run_server (outcome : RunOutcome) : ProcResult :=
  match outcome with
  | RunOutcome.normal => ProcResult.finished
  | RunOutcome.osError e =>
      if e = 98 then ProcResult.exited 1 "Unable to choose a free port."
      else ProcResult.raisedOS e

/-- C3: an `OSError` with errno 98 from the server start makes `run_server`
print a diagnostic to stderr and exit the process with status 1, while an
`OSError` with any other errno is re-raised unhandled. -/
theorem C3_bind_failure_handling (e : ℤ) :
    run_server (RunOutcome.osError 98) =
      ProcResult.exited 1 "Unable to choose a free port." ∧
    (e ≠ 98 → run_server (RunOutcome.osError e) = ProcResult.raisedOS e) := by
  refine ⟨rfl, fun h => ?_⟩
  simp [run_server, h]

theorem C3_witness :
    run_server (RunOutcome.osError 98) =
      ProcResult.exited 1 "Unable to choose a free port." ∧
    ((13 : ℤ) ≠ 98 ∧
      run_server (RunOutcome.osError 13) = ProcResult.raisedOS 13) :=
  ⟨(C3_bind_failure_handling 13).1,
   by decide, (C3_bind_failure_handling 13).2 (by decide)⟩

end Serve

namespace ShyLLM

/-!
Embedding of the request-handling application in shyLLM@0.0.2.py.

`API_KEY = os.environ.get("SHYLLM_API_KEY")` is `str | None`; we model it as
`Option String` and pass it as a parameter.  Python's truthiness test
`if api_key` on a `str` is `api_key ≠ ""`, and `api_key != API_KEY` between
a `str` and `str | None` is inequality in `Option String` (a string never
equals `None`).  The generation pipeline (the `try` body: `load_model`
followed by the pipeline call) is an external collaborator modelled as a
function from the validated query to `Except String String`, where the
`error` case carries the internal fault detail of the raised exception.
Floats (`temperature`, `top_p`) are carried as rationals; they are only
passed through, never computed with.
-/

/-- Python `str.strip()`: remove leading and trailing whitespace. -/
def pyStrip (s : String) : String :=
  String.mk (((s.data.dropWhile Char.isWhitespace).reverse.dropWhile
    Char.isWhitespace).reverse)

/-- The validated request body (pydantic model `Query`). -/
structure Query : Type where
  prompt : String
  max_length : ℤ
  temperature : ℚ
  top_p : ℚ
deriving DecidableEq, Repr

/-- Exceptions escaping the pydantic field validators.  The source targets
pydantic v2 (it imports `field_validator`, which only exists there), and in
pydantic v2 `ValidationError` is a pydantic-core class with no Python-level
constructor: the call `ValidationError(errors, cls)` in the validators
raises `TypeError` before anything is deliberately raised.  Pydantic v2
converts only `ValueError`/`AssertionError` raised inside a validator into
a schema validation error; a `TypeError` is not converted and escapes
request handling unhandled. -/
inductive PyExc : Type
  | typeError (msg : String)
deriving DecidableEq, Repr

/-- The validators' error branch `raise ValidationError(errors, cls)`:
constructing `ValidationError` this way is impossible in pydantic v2, so
evaluating the constructor call raises `TypeError` — the collected
`errors` list is discarded before any exception is deliberately raised. -/
def raise_validation_error (_errors : List String) : PyExc :=
  PyExc.typeError "No constructor defined"

/-- Field validator `prompt_not_empty`: when the prompt is falsy (empty) it
collects a `ValueError` and reaches `raise ValidationError(errors, cls)`,
whose constructor call itself raises `TypeError` (see `PyExc`); otherwise
it returns `v.strip()`.  (The `isinstance(v, str)` branch cannot fire in
the typed embedding, where `v` is always a string.) -/
def prompt_not_empty (v : String) : Except PyExc String :=
  if v = "" then Except.error (raise_validation_error ["Prompt cannot be empty"])
  else Except.ok (pyStrip v)

/-- Field validator `validate_max_length`: a value that is not a strictly
positive integer reaches the same `raise ValidationError([...], cls)` line,
which itself raises `TypeError` — an escaping exception rather than a clean
schema rejection.  A positive value is returned unchanged. -/
def validate_max_length (v : ℤ) : Except PyExc ℤ :=
  if v ≤ 0 then Except.error (raise_validation_error ["max_length must be a positive integer"])
  else Except.ok v

/-- Schema validation of a raw request body into a `Query`, running both
field validators; a validator exception aborts the request. -/
def Query.validate (prompt : String) (max_length : ℤ) (temperature top_p : ℚ) :
    Except PyExc Query :=
  match prompt_not_empty prompt, validate_max_length max_length with
  | Except.error e, _ => Except.error e
  | Except.ok _, Except.error e => Except.error e
  | Except.ok p, Except.ok ml =>
      Except.ok { prompt := p, max_length := ml, temperature := temperature, top_p := top_p }

/-- HTTP-level response of the `/generate` endpoint: the success payload
(`prompt` and generated text) or an `HTTPException` with status and detail. -/
inductive Resp : Type
  | ok (prompt : String) (generated : String)
  | httpError (status : ℕ) (detail : String)
deriving DecidableEq, Repr

/-- The `try` block of `generate_text`: invoke the pipeline on the query;
on success wrap prompt and generated text, on any exception log and answer
with a fixed 500 response that does not expose the fault detail. -/
def genPhase (pipe : Query → Except String String) (query : Query) : Resp :=
  match pipe query with
  | Except.ok output => Resp.ok query.prompt output
  | Except.error _ => Resp.httpError 500 "Failed to generate text."

/-- shyLLM@0.0.2.py `generate_text`: if `api_key` is truthy (non-empty) and
differs from the configured `API_KEY`, raise 401; otherwise run the
generation pipeline. -/
def generate_text (apiKeyEnv : Option String) (pipe : Query → Except String String)
    (query : Query) (api_key : String) : Resp :=
  if api_key ≠ "" ∧ some api_key ≠ apiKeyEnv then
    Resp.httpError 401 "Unauthorized API key provided."
  else genPhase pipe query

/-- Result of a `/generate` request as seen by the framework: either the
handler (or FastAPI's validation layer) produced an HTTP response, or an
exception escaped request handling unhandled (the server then falls back to
a generic 500 Internal Server Error produced outside the application). -/
inductive ReqResult : Type
  | handled (r : Resp)
  | unhandledException (e : PyExc)
deriving DecidableEq, Repr

/-- The `/generate` endpoint as seen from a raw request: FastAPI first
builds the `Query` model, running the field validators.  Because their
error branches raise `TypeError` (not a `ValidationError` or `ValueError`),
a validation failure is NOT converted into a 422 schema rejection: the
exception escapes unhandled.  On successful validation `generate_text`
runs. -/
def handle_generate (apiKeyEnv : Option String) (pipe : Query → Except String String)
    (prompt : String) (max_length : ℤ) (temperature top_p : ℚ)
    (api_key : String) : ReqResult :=
  match Query.validate prompt max_length temperature top_p with
  | Except.error e => ReqResult.unhandledException e
  | Except.ok q => ReqResult.handled (generate_text apiKeyEnv pipe q api_key)

end ShyLLM

namespace ShyLLM

/-- C4: a supplied (non-empty) credential that does not match the configured
secret is answered with 401 Unauthorized; with no secret configured and no
credential supplied (FastAPI default `api_key = ''`), the request is
authorized and proceeds to the generation phase. -/
theorem C4_auth_policy (apiKeyEnv : Option String)
    (pipe : Query → Except String String) (q : Query) :
    (∀ key : String, key ≠ "" → some key ≠ apiKeyEnv →
      generate_text apiKeyEnv pipe q key =
        Resp.httpError 401 "Unauthorized API key provided.") ∧
    (apiKeyEnv = none → generate_text apiKeyEnv pipe q "" = genPhase pipe q) := by
  constructor
  · intro key h1 h2
    simp [generate_text, h1, h2]
  · intro _
    simp [generate_text]

theorem C4_witness :
    (("bad" : String) ≠ "" ∧ (some "bad" : Option String) ≠ some "secret" ∧
      generate_text (some "secret") (fun _ => Except.ok "txt")
        ⟨"hi", 100, 1, 1⟩ "bad" =
        Resp.httpError 401 "Unauthorized API key provided.") ∧
    ((none : Option String) = none ∧
      generate_text none (fun _ => Except.ok "txt") ⟨"hi", 100, 1, 1⟩ "" =
        genPhase (fun _ => Except.ok "txt") ⟨"hi", 100, 1, 1⟩) :=
  ⟨⟨by decide, by decide,
    (C4_auth_policy (some "secret") (fun _ => Except.ok "txt")
      ⟨"hi", 100, 1, 1⟩).1 "bad" (by decide) (by decide)⟩,
   ⟨rfl, (C4_auth_policy none (fun _ => Except.ok "txt")
      ⟨"hi", 100, 1, 1⟩).2 rfl⟩⟩

/-- C5: `generate_text` answers 401 if and only if the supplied `api_key` is
non-empty and differs from the configured `API_KEY`; consequently an empty
credential is authorized even with a secret configured, and with no secret
configured every non-empty credential is rejected. -/
theorem C5_auth_iff (apiKeyEnv : Option String)
    (pipe : Query → Except String String) (q : Query) (api_key : String) :
    (generate_text apiKeyEnv pipe q api_key =
        Resp.httpError 401 "Unauthorized API key provided."
      ↔ api_key ≠ "" ∧ some api_key ≠ apiKeyEnv) ∧
    generate_text apiKeyEnv pipe q "" = genPhase pipe q ∧
    (apiKeyEnv = none → api_key ≠ "" →
      generate_text apiKeyEnv pipe q api_key =
        Resp.httpError 401 "Unauthorized API key provided.") := by
  have hgen : ∀ r, genPhase pipe r ≠
      Resp.httpError 401 "Unauthorized API key provided." := by
    intro r
    unfold genPhase
    cases pipe r with
    | ok o => simp
    | error e => simp
  refine ⟨⟨?_, ?_⟩, ?_, ?_⟩
  · intro h
    by_contra hc
    rw [generate_text, if_neg hc] at h
    exact hgen q h
  · intro hc
    simp [generate_text, hc.1, hc.2]
  · simp [generate_text]
  · intro h1 h2
    subst h1
    simp [generate_text, h2]

theorem C5_witness :
    ((none : Option String) = none ∧ ("x" : String) ≠ "") ∧
    generate_text none (fun _ => Except.ok "t") ⟨"hi", 100, 1, 1⟩ "x" =
      Resp.httpError 401 "Unauthorized API key provided." :=
  ⟨⟨rfl, by decide⟩,
   (C5_auth_iff none (fun _ => Except.ok "t")
     ⟨"hi", 100, 1, 1⟩ "x").2.2 rfl (by decide)⟩

/-- C6 (code bug): the docstrings and the claim intend a schema rejection
for an empty prompt or a non-positive `max_length`, but the validators'
`raise ValidationError(errors, cls)` line itself raises `TypeError` in
pydantic v2, which is not converted into a validation error: evaluated at
the failing inputs (empty prompt with `max_length = 100`, and prompt "hi"
with `max_length = 0`), the request ends in an unhandled exception, not a
schema rejection — though the generation pipeline is indeed never invoked
(the outcome is the same for every pipeline). -/
theorem C6_validator_crash_not_schema_rejection :
    Query.validate "" 100 1 1 =
      Except.error (PyExc.typeError "No constructor defined") ∧
    Query.validate "hi" 0 1 1 =
      Except.error (PyExc.typeError "No constructor defined") ∧
    handle_generate none (fun _ => Except.ok "a") "" 100 1 1 "" =
      ReqResult.unhandledException (PyExc.typeError "No constructor defined") ∧
    handle_generate none (fun _ => Except.ok "a") "hi" 0 1 1 "" =
      ReqResult.unhandledException (PyExc.typeError "No constructor defined") ∧
    handle_generate none (fun _ => Except.ok "a") "" 100 1 1 "" =
      handle_generate none (fun _ => Except.error "boom") "" 100 1 1 "" := by
  exact ⟨rfl, rfl, rfl, rfl, rfl⟩

/-- C7: a non-empty prompt consisting only of whitespace passes
`prompt_not_empty` (the emptiness check runs before stripping) and is
returned stripped, so the validated query carries an empty prompt and the
generation pipeline is invoked with the empty prompt string. -/
theorem C7_whitespace_prompt_passes (s : String) (hne : s ≠ "")
    (hws : ∀ c ∈ s.data, c.isWhitespace = true)
    (ml : ℤ) (hml : 0 < ml) (t tp : ℚ) (apiKeyEnv : Option String)
    (pipe : Query → Except String String) :
    prompt_not_empty s = Except.ok "" ∧
    Query.validate s ml t tp = Except.ok ⟨"", ml, t, tp⟩ ∧
    handle_generate apiKeyEnv pipe s ml t tp "" =
      ReqResult.handled (genPhase pipe ⟨"", ml, t, tp⟩) := by
  have hstrip : pyStrip s = "" := by
    unfold pyStrip
    have h1 : s.data.dropWhile Char.isWhitespace = [] :=
      List.dropWhile_eq_nil_iff.mpr (fun c hc => hws c hc)
    rw [h1]
    rfl
  have hpne : prompt_not_empty s = Except.ok "" := by
    unfold prompt_not_empty
    rw [if_neg hne, hstrip]
  have hvml : validate_max_length ml = Except.ok ml := by
    unfold validate_max_length
    rw [if_neg (by omega)]
  have hq : Query.validate s ml t tp = Except.ok ⟨"", ml, t, tp⟩ := by
    unfold Query.validate
    rw [hpne, hvml]
  refine ⟨hpne, hq, ?_⟩
  unfold handle_generate
  rw [hq]
  simp [generate_text]

theorem C7_witness :
    ((" " : String) ≠ "" ∧ (∀ c ∈ (" " : String).data, c.isWhitespace = true) ∧
      (0 : ℤ) < 100) ∧
    prompt_not_empty " " = Except.ok "" ∧
    Query.validate " " 100 1 1 = Except.ok ⟨"", 100, 1, 1⟩ ∧
    handle_generate none (fun _ => Except.ok "gen") " " 100 1 1 "" =
      ReqResult.handled (genPhase (fun _ => Except.ok "gen") ⟨"", 100, 1, 1⟩) :=
  ⟨⟨by decide, by decide, by decide⟩,
   C7_whitespace_prompt_passes " " (by decide) (by decide) 100 (by decide)
     1 1 none (fun _ => Except.ok "gen")⟩

/-- C8: whatever exception the generation pipeline raises, the error
response is one and the same: status 500 with the fixed body
"Failed to generate text." — it does not depend on the fault detail. -/
theorem C8_no_fault_detail_leak (apiKeyEnv : Option String) (q : Query)
    (api_key : String) (hauth : ¬(api_key ≠ "" ∧ some api_key ≠ apiKeyEnv))
    (f1 f2 : String) :
    generate_text apiKeyEnv (fun _ => Except.error f1) q api_key =
      generate_text apiKeyEnv (fun _ => Except.error f2) q api_key ∧
    generate_text apiKeyEnv (fun _ => Except.error f1) q api_key =
      Resp.httpError 500 "Failed to generate text." := by
  unfold generate_text
  rw [if_neg hauth, if_neg hauth]
  exact ⟨rfl, rfl⟩

theorem C8_witness :
    (¬(("" : String) ≠ "" ∧ (some "" : Option String) ≠ none)) ∧
    generate_text none (fun _ => Except.error "CUDA error") ⟨"hi", 100, 1, 1⟩ "" =
      generate_text none (fun _ => Except.error "tokenizer fault")
        ⟨"hi", 100, 1, 1⟩ "" ∧
    generate_text none (fun _ => Except.error "CUDA error") ⟨"hi", 100, 1, 1⟩ "" =
      Resp.httpError 500 "Failed to generate text." :=
  ⟨by decide,
   C8_no_fault_detail_leak none ⟨"hi", 100, 1, 1⟩ "" (by decide)
     "CUDA error" "tokenizer fault"⟩

end ShyLLM

namespace ShyLLM

/-- State of the process-wide `lru_cache(maxsize = 1)` wrapper around
`load_model` in shyLLM@0.0.2.py: how many times the loader body has run,
and the cached entries (at most one is ever kept). -/
structure LoadState (P : Type) : Type where
  execs : ℕ
  cache : List (String × P)
deriving DecidableEq, Repr

/-- Lookup of a model name among the cached entries. -/
def cacheLookup {P : Type} (cache : List (String × P)) (m : String) : Option P :=
  match cache with
  | [] => none
  | (k, v) :: rest => if k = m then some v else cacheLookup rest m

/-- One call of the cached `load_model`.  The loader body (building
tokenizer, model and pipeline) is external; `body n` is the pipeline object
its `n`-th execution produces, so distinct executions may yield distinct
objects.  Returns the pipeline, whether the body actually ran, and the new
cache state; on a miss the fresh entry is inserted and the cache truncated
to `maxsize = 1`, evicting any previous entry. -/
def load_model {P : Type} (body : ℕ → P) (s : LoadState P) (m : String) :
    P × Bool × LoadState P :=
  match cacheLookup s.cache m with
  | some v => (v, false, s)
  | none =>
      (body s.execs, true,
        { execs := s.execs + 1, cache := ((m, body s.execs) :: s.cache).take 1 })

/-- Run a sequence of `load_model` calls, threading the cache state. -/
def runLoads {P : Type} (body : ℕ → P) (s : LoadState P) : List String → LoadState P
  | [] => s
  | m :: rest => runLoads body (load_model body s m).2.2 rest

lemma load_model_first {P : Type} (body : ℕ → P) (m : String) :
    load_model body ⟨0, []⟩ m =
      (body 0, true, ⟨1, [(m, body 0)]⟩) := rfl

lemma load_model_hit {P : Type} (body : ℕ → P) (e : ℕ) (m : String) (v : P) :
    load_model body ⟨e, [(m, v)]⟩ m = (v, false, ⟨e, [(m, v)]⟩) := by
  simp [load_model, cacheLookup]

lemma runLoads_replicate_hit {P : Type} (body : ℕ → P) (e : ℕ) (m : String) (v : P) :
    ∀ k, runLoads body ⟨e, [(m, v)]⟩ (List.replicate k m) = ⟨e, [(m, v)]⟩ := by
  intro k
  induction k with
  | zero => rfl
  | succ k ih =>
    show runLoads body (load_model body ⟨e, [(m, v)]⟩ m).2.2 (List.replicate k m) = _
    rw [load_model_hit]
    exact ih

lemma load_model_cache_len {P : Type} (body : ℕ → P) (s : LoadState P) (m : String)
    (h : s.cache.length ≤ 1) : ((load_model body s m).2.2).cache.length ≤ 1 := by
  unfold load_model
  cases hc : cacheLookup s.cache m with
  | some v => simpa using h
  | none =>
    simp only [List.length_take]
    omega

lemma runLoads_cache_len {P : Type} (body : ℕ → P) :
    ∀ (ms : List String) (s : LoadState P), s.cache.length ≤ 1 →
      ((runLoads body s ms).cache.length ≤ 1) := by
  intro ms
  induction ms with
  | nil => intro s h; exact h
  | cons m rest ih =>
    intro s h
    exact ih _ (load_model_cache_len body s m h)

/-- C10: `load_model` is a single-slot memo cache.  Starting from the empty
cache, the first call with `m` executes the loader body and returns its
object; after that, any number of further calls with `m` leave the state
unchanged (the body never re-executes, the execution count stays at one) and
each such call returns exactly the object produced by the first call; and
from any state with at most one cached entry, the cache never holds more
than one entry. -/
theorem C10_single_slot_cache {P : Type} (body : ℕ → P) (m : String) (k : ℕ)
    (s : LoadState P) (ms : List String) (hlen : s.cache.length ≤ 1) :
    load_model body ⟨0, []⟩ m = (body 0, true, ⟨1, [(m, body 0)]⟩) ∧
    load_model body ⟨1, [(m, body 0)]⟩ m =
      (body 0, false, ⟨1, [(m, body 0)]⟩) ∧
    runLoads body ⟨1, [(m, body 0)]⟩ (List.replicate k m) = ⟨1, [(m, body 0)]⟩ ∧
    (runLoads body s ms).cache.length ≤ 1 :=
  ⟨load_model_first body m, load_model_hit body 1 m (body 0),
   runLoads_replicate_hit body 1 m (body 0) k,
   runLoads_cache_len body ms s hlen⟩

theorem C10_witness :
    ((⟨0, []⟩ : LoadState ℕ).cache.length ≤ 1) ∧
    load_model (fun n => n + 100) (⟨0, []⟩ : LoadState ℕ) "model" =
      (100, true, ⟨1, [("model", 100)]⟩) ∧
    load_model (fun n => n + 100) (⟨1, [("model", 100)]⟩ : LoadState ℕ) "model" =
      (100, false, ⟨1, [("model", 100)]⟩) ∧
    runLoads (fun n => n + 100) (⟨1, [("model", 100)]⟩ : LoadState ℕ)
      (List.replicate 2 "model") = ⟨1, [("model", 100)]⟩ ∧
    (runLoads (fun n => n + 100) (⟨0, []⟩ : LoadState ℕ)
      ["modelA", "modelB"]).cache.length ≤ 1 :=
  ⟨by decide,
   C10_single_slot_cache (fun n => n + 100) "model" 2 ⟨0, []⟩
     ["modelA", "modelB"] (by decide)⟩

end ShyLLM
